import Mathlib

/-!
Shallow embedding of the broot browser panel state machine
(`src/browser/browser_state.rs`, `src/browser/browser_verbs.rs`).

The per-panel `BrowserState` owns a base `FlatTree`, an optional filtered `FlatTree`,
a pending `InputPattern` and a `total_search_required` flag.  Verbs are
dispatched through `on_internal` / `execute_verb`; idle ticks call
`do_pending_task`.  Collaborators that are not part of the provided sources
(the tree builder, the git status fetcher, the directory-sum computation,
the external opener, verb invocation matching) are modelled from the spec
and kept abstract behind an `Env` record of functions where their inner
behavior is irrelevant to the properties proved here.
-/

/-- A filesystem path, as its list of components (the root is `[]`). -/
abbrev FsPath := List String

/-- `FsPath::parent`: drop the last component; the filesystem root has no parent. -/
def FsPath.parent (p : FsPath) : Option FsPath :=
  match p with
  | [] => none
  | _ => some p.dropLast

/-- The raw content of a search pattern (kept abstract as a string). -/
abbrev Pat := String

/-- `InputPattern`: a pattern or none.  `is_some`/`is_none`/`take` of the Rust
type correspond to the `Option` operations. -/
abbrev InputPattern := Option Pat

/-- Git status data attached to a tree (abstract: path/status pairs). -/
abbrev GitStatus := List (FsPath × Nat)

/-- `Sort` from `tree_options.rs` (reconstructed from its uses in
`browser_state.rs`): the active sort criterion.  Named `SortKind` because
`Sort` is reserved in Lean. -/
inductive SortKind where
  | none
  | count
  | date
  | size
deriving DecidableEq, Repr

/-- `TreeOptions`: the build/display options of a tree.  Fields are exactly
those read or written by the provided sources. -/
structure TreeOptions where
  show_hidden : Bool
  only_folders : Bool
  show_counts : Bool
  show_dates : Bool
  show_sizes : Bool
  show_git_file_info : Bool
  trim_root : Bool
  show_permissions : Bool
  respect_git_ignore : Bool
  filter_by_git_status : Bool
  sort : SortKind
  pattern : InputPattern
deriving DecidableEq, Repr

/-- `TreeOptions::without_pattern` (tree_options.rs is not in the sources;
modelled from its use: same options with the pattern cleared). -/
def TreeOptions.without_pattern (o : TreeOptions) : TreeOptions :=
  { o with pattern := none }

/-! ### Option-change closures

Each `Internal` option verb passes a closure to `with_new_options`
(`browser_state.rs`, `on_internal`).  They are reified here as named
functions, translated literally from the closures. -/

/-- Closure of `Internal::sort_by_count` (browser_state.rs:492-506). -/
def sort_by_count_opt (o : TreeOptions) : TreeOptions :=
  if o.sort = SortKind.count then
    { o with sort := SortKind.none, show_counts := false }
  else
    { o with sort := SortKind.count, show_counts := true }

/-- Closure of `Internal::sort_by_date` (browser_state.rs:507-521). -/
def sort_by_date_opt (o : TreeOptions) : TreeOptions :=
  if o.sort = SortKind.date then
    { o with sort := SortKind.none, show_dates := false }
  else
    { o with sort := SortKind.date, show_dates := true }

/-- Closure of `Internal::sort_by_size` (browser_state.rs:522-536). -/
def sort_by_size_opt (o : TreeOptions) : TreeOptions :=
  if o.sort = SortKind.size then
    { o with sort := SortKind.none, show_sizes := false }
  else
    { o with sort := SortKind.size, show_sizes := true }

/-- Closure of `Internal::no_sort` (browser_state.rs:537-539). -/
def no_sort_opt (o : TreeOptions) : TreeOptions :=
  { o with sort := SortKind.none }

/-- Closure of `Internal::toggle_counts` (`o.show_counts ^= true`). -/
def toggle_counts_opt (o : TreeOptions) : TreeOptions :=
  { o with show_counts := Bool.xor o.show_counts true }

/-- Closure of `Internal::toggle_dates` (`o.show_dates ^= true`). -/
def toggle_dates_opt (o : TreeOptions) : TreeOptions :=
  { o with show_dates := Bool.xor o.show_dates true }

/-- Closure of `Internal::toggle_files` (`o.only_folders ^= true`). -/
def toggle_files_opt (o : TreeOptions) : TreeOptions :=
  { o with only_folders := Bool.xor o.only_folders true }

/-- Closure of `Internal::toggle_hidden` (`o.show_hidden ^= true`). -/
def toggle_hidden_opt (o : TreeOptions) : TreeOptions :=
  { o with show_hidden := Bool.xor o.show_hidden true }

/-- Closure of `Internal::toggle_git_ignore` (`o.respect_git_ignore ^= true`). -/
def toggle_git_ignore_opt (o : TreeOptions) : TreeOptions :=
  { o with respect_git_ignore := Bool.xor o.respect_git_ignore true }

/-- Closure of `Internal::toggle_git_file_info` (`o.show_git_file_info ^= true`). -/
def toggle_git_file_info_opt (o : TreeOptions) : TreeOptions :=
  { o with show_git_file_info := Bool.xor o.show_git_file_info true }

/-- Closure of `Internal::toggle_git_status` (browser_state.rs:558-569):
switching the filter on also forces `show_hidden` on. -/
def toggle_git_status_opt (o : TreeOptions) : TreeOptions :=
  if o.filter_by_git_status then
    { o with filter_by_git_status := false }
  else
    { o with filter_by_git_status := true, show_hidden := true }

/-- Closure of `Internal::toggle_perm` (`o.show_permissions ^= true`). -/
def toggle_perm_opt (o : TreeOptions) : TreeOptions :=
  { o with show_permissions := Bool.xor o.show_permissions true }

/-- Closure of `Internal::toggle_sizes` (`o.show_sizes ^= true`). -/
def toggle_sizes_opt (o : TreeOptions) : TreeOptions :=
  { o with show_sizes := Bool.xor o.show_sizes true }

/-- Closure of `Internal::toggle_trim_root` (`o.trim_root ^= true`). -/
def toggle_trim_root_opt (o : TreeOptions) : TreeOptions :=
  { o with trim_root := Bool.xor o.trim_root true }

/-- A baseline options value (all display facets off, git-ignore respected,
no sort, no pattern), used as concrete input in witnesses. -/
def opt0 : TreeOptions :=
  { show_hidden := false
    only_folders := false
    show_counts := false
    show_dates := false
    show_sizes := false
    show_git_file_info := false
    trim_root := false
    show_permissions := false
    respect_git_ignore := true
    filter_by_git_status := false
    sort := SortKind.none
    pattern := none }

/-! ### FlatTree model

`tree.rs` / `flat_tree.rs` are not among the provided sources; the `FlatTree`
data type and its few operations used by `BrowserState` are modelled from
the spec (sections 3, 4.4 and the design notes). -/

/-- `TreeLineType` (modelled from the spec data model, section 3). -/
inductive TreeLineType where
  | File
  | Dir
  | SymLinkToDir (target : FsPath)
  | SymLinkToFile (target : FsPath)
  | Pruning
deriving DecidableEq, Repr, Inhabited

/-- One visible row of a tree.  `sum` is the lazily computed directory
summary, `score` the pattern-match score (modelled from the spec). -/
structure TreeLine where
  path : FsPath
  line_type : TreeLineType
  sum : Option Nat
  score : Option Nat
deriving DecidableEq, Repr, Inhabited

/-- `TreeLine::target`: the symlink target for symlink lines, else the
line's own path. -/
def TreeLine.target (l : TreeLine) : FsPath :=
  match l.line_type with
  | TreeLineType.SymLinkToDir t => t
  | TreeLineType.SymLinkToFile t => t
  | _ => l.path

/-- The Tree Model: ordered lines, selection index, scroll offset, the
options that produced it, the total-search flag and the git status data.
`needs_git_status` records whether a git-status computation is wanted
(modelled from the spec: whether status annotations are outstanding). -/
structure FlatTree where
  lines : List TreeLine
  selection : Nat
  scroll : Nat
  options : TreeOptions
  total_search : Bool
  git_status : Option GitStatus
  needs_git_status : Bool
deriving DecidableEq, Repr

/-- `FlatTree::root`: the path of the first line. -/
def FlatTree.root (t : FlatTree) : FsPath :=
  (t.lines.headD default).path

/-- `FlatTree::selected_line`: the line at the selection index. -/
def FlatTree.selectedLine (t : FlatTree) : TreeLine :=
  t.lines.getD t.selection default

/-- Modelled from the spec: `FlatTree::try_select_path` moves the selection to
the line showing the given path, when such a line exists, and leaves the
tree unchanged otherwise (used by `back` to carry the filtered selection
into the base tree). -/
def FlatTree.try_select_path (t : FlatTree) (p : FsPath) : FlatTree :=
  match t.lines.findIdx? (fun l => l.path = p) with
  | some i => { t with selection := i }
  | none => t

/-- Modelled from the spec: `FlatTree::try_select_best_match` selects the first
line carrying a maximal match score, if any line is scored. -/
def FlatTree.try_select_best_match (t : FlatTree) : FlatTree :=
  let scored := t.lines.enum.filterMap fun il => il.2.score.map fun sc => (il.1, sc)
  match scored.foldl
      (fun acc isc =>
        match acc with
        | Option.none => some isc
        | some best => if isc.2 > best.2 then some isc else some best)
      Option.none with
  | some best => { t with selection := best.1 }
  | none => t

/-- Modelled from the spec: `FlatTree::make_selection_visible` adjusts the
scroll offset so the selection lies within the viewport of the given
page height. -/
def FlatTree.make_selection_visible (t : FlatTree) (page_height : Nat) : FlatTree :=
  if t.selection < t.scroll then { t with scroll := t.selection }
  else if t.scroll + page_height ≤ t.selection then
    { t with scroll := t.selection + 1 - page_height }
  else t

/-- Modelled from the spec: whether a git-status computation is still
outstanding for this tree (wanted but not yet obtained). -/
def FlatTree.is_missing_git_status_computation (t : FlatTree) : Bool :=
  t.needs_git_status && t.git_status.isNone

/-- Modelled from the spec: whether some directory line still lacks its
lazily computed summary. -/
def FlatTree.has_dir_missing_sum (t : FlatTree) : Bool :=
  t.lines.any fun l =>
    (match l.line_type with
     | TreeLineType.Dir => true
     | _ => false) && l.sum.isNone

/-! ### Cancellation token and collaborators -/

/-- The cancellation token (`Dam`, task_sync.rs, not among the sources;
modelled from the spec section 4.3): for each checkpoint index it answers
whether the computation must stop. -/
structure Dam where
  interrupted : Nat → Bool

/-- `Dam::unlimited`: never interrupts. -/
def Dam.unlimited : Dam :=
  { interrupted := fun _ => false }

/-- A build error from `TreeBuilder::from` (errors.rs not among the
sources; the message is all that matters here). -/
abbrev TreeBuildError := String

/-- `ProgramError` (errors.rs not among the sources): only the shapes
used by the embedded functions. -/
inductive ProgramError where
  | openError (msg : String)
  | internalError
deriving DecidableEq, Repr

/-- The external collaborators of the browser state, kept abstract as
functions (they are not part of the verified core): whether
`TreeBuilder::from` fails on a root, how many cancellation checkpoints a
build passes through, the external opener, the git status fetcher and the
directory-sum batch computation. -/
structure Env where
  fromFail : FsPath → Option TreeBuildError
  checkpoints : FsPath → Nat
  openThat : FsPath → Except String Unit
  getTreeStatus : FsPath → Dam → Option GitStatus
  fetchSomeMissingDirSum : FlatTree → Dam → FlatTree

/-- A prepared tree builder: root, options and the number of cancellation
checkpoints its build will pass through. -/
structure TreeBuilder where
  root : FsPath
  options : TreeOptions
  work : Nat

/-- Modelled from the spec: `TreeBuilder::from` prepares a builder for a
root and options (it can fail with a build error); `page_height` is carried
as in the source signature. -/
def TreeBuilder.from' (env : Env) (root : FsPath) (options : TreeOptions)
    (_page_height : Nat) : Except TreeBuildError TreeBuilder :=
  match env.fromFail root with
  | some e => Except.error e
  | none => Except.ok { root := root, options := options, work := env.checkpoints root }

/-- Modelled from the spec: `TreeBuilder::build` checks the dam at every
checkpoint and aborts with no tree on interruption; otherwise it produces
a tree rooted at the builder's root, carrying the builder's options and
the requested total-search flag. -/
def TreeBuilder.build (b : TreeBuilder) (total : Bool) (dam : Dam) : Option FlatTree :=
  if (List.range b.work).any dam.interrupted then none
  else
    some
      { lines := [{ path := b.root, line_type := TreeLineType.Dir, sum := none, score := none }]
        selection := 0
        scroll := 0
        options := b.options
        total_search := total
        git_status := none
        needs_git_status := b.options.filter_by_git_status }

/-! ### Browser state (browser_state.rs) -/

/-- `BrowserState` (browser_state.rs:31-36): the per-panel state machine. -/
structure BrowserState where
  tree : FlatTree
  filtered_tree : Option FlatTree
  pending_pattern : InputPattern
  total_search_required : Bool
deriving DecidableEq, Repr

/-- `AppStateCmdResult` (app.rs not among the sources; constructors are the
panel-level outcomes produced by the embedded functions). -/
inductive AppStateCmdResult where
  | Keep
  | PopState
  | Quit
  | DisplayError (msg : String)
  | NewState (state : BrowserState) (in_new_panel : Bool)
deriving DecidableEq, Repr

/-- Modelled from the spec: `AppStateCmdResult::from_optional_state` maps a
construction result to a panel outcome — a new state opens a (possibly new)
panel, no result keeps the previous state unchanged, an error is displayed. -/
def AppStateCmdResult.from_optional_state
    (r : Except TreeBuildError (Option BrowserState)) (in_new_panel : Bool) :
    AppStateCmdResult :=
  match r with
  | Except.ok (some s) => AppStateCmdResult.NewState s in_new_panel
  | Except.ok none => AppStateCmdResult.Keep
  | Except.error e => AppStateCmdResult.DisplayError e

/-- The root path of the tree carried by a `NewState` outcome (a projection
used to state where a construction was rooted). -/
def AppStateCmdResult.newStateRoot : AppStateCmdResult → Option FsPath
  | AppStateCmdResult.NewState st _ => some st.tree.root
  | _ => none

/-- `BrowserState::new` (browser_state.rs:44-64): take the pattern out of the
options as the pending pattern, prepare a builder, and build the base tree;
`Ok(None)` exactly when the build was cancelled. -/
def BrowserState.new (env : Env) (path : FsPath) (options : TreeOptions)
    (page_height : Nat) (dam : Dam) :
    Except TreeBuildError (Option BrowserState) :=
  let pending_pattern := options.pattern
  let options := { options with pattern := none }
  match TreeBuilder.from' env path options page_height with
  | Except.error e => Except.error e
  | Except.ok builder =>
      Except.ok ((builder.build false dam).map fun tree =>
        { tree := tree
          filtered_tree := none
          pending_pattern := pending_pattern
          total_search_required := false })

/-- `BrowserState::displayed_tree` (browser_state.rs:92-94): the filtered
tree when present, else the base tree. -/
def BrowserState.displayed_tree (s : BrowserState) : FlatTree :=
  s.filtered_tree.getD s.tree

/-- Write through `displayed_tree_mut` (browser_state.rs:98-100): replace
the filtered tree when present, else the base tree. -/
def BrowserState.set_displayed_tree (s : BrowserState) (t : FlatTree) : BrowserState :=
  match s.filtered_tree with
  | some _ => { s with filtered_tree := some t }
  | none => { s with tree := t }

/-- `BrowserState::with_new_options` (browser_state.rs:66-80): rebuild from
the displayed tree's root with changed options, using an unlimited dam. -/
def BrowserState.with_new_options (s : BrowserState) (env : Env)
    (page_height : Nat) (change : TreeOptions → TreeOptions)
    (in_new_panel : Bool) : AppStateCmdResult :=
  let tree := s.displayed_tree
  let options := change tree.options
  AppStateCmdResult.from_optional_state
    (BrowserState.new env tree.root options page_height Dam.unlimited)
    in_new_panel

/-- `BrowserState::on_pattern` (browser_state.rs:291-301): an empty pattern
discards the filtered tree; the pattern becomes the pending pattern. -/
def BrowserState.on_pattern (s : BrowserState) (pat : InputPattern) :
    BrowserState × AppStateCmdResult :=
  let s := if pat.isNone then { s with filtered_tree := none } else s
  ({ s with pending_pattern := pat }, AppStateCmdResult.Keep)

/-- The internal verbs handled by the embedded `on_internal`
(verb.rs not among the sources; this is the subset of `Internal`
exercised by the verified properties). -/
inductive Internal where
  | back
  | sort_by_count
  | sort_by_date
  | sort_by_size
  | no_sort
  | toggle_counts
  | toggle_dates
  | toggle_files
  | toggle_hidden
  | toggle_git_ignore
  | toggle_git_file_info
  | toggle_git_status
  | toggle_perm
  | toggle_sizes
  | toggle_trim_root
  | total_search
  | quit
deriving DecidableEq, Repr

/-- `BrowserState::on_internal` (browser_state.rs:303-606), restricted to the
modelled subset of `Internal`.  Mutation of `&mut self` is rendered as
returning the updated state next to the `AppStateCmdResult`. -/
def BrowserState.on_internal (s : BrowserState) (env : Env) (page_height : Nat)
    (internal : Internal) (bang : Bool) : BrowserState × AppStateCmdResult :=
  match internal with
  | Internal.back =>
    match s.filtered_tree with
    | some filtered_tree =>
        let filtered_selection := filtered_tree.selectedLine.path
        ({ s with
            tree := s.tree.try_select_path filtered_selection
            filtered_tree := none },
         AppStateCmdResult.Keep)
    | none =>
        if s.tree.selection > 0 then
          ({ s with tree := { s.tree with selection := 0 } }, AppStateCmdResult.Keep)
        else
          (s, AppStateCmdResult.PopState)
  | Internal.sort_by_count =>
      (s, s.with_new_options env page_height sort_by_count_opt bang)
  | Internal.sort_by_date =>
      (s, s.with_new_options env page_height sort_by_date_opt bang)
  | Internal.sort_by_size =>
      (s, s.with_new_options env page_height sort_by_size_opt bang)
  | Internal.no_sort =>
      (s, s.with_new_options env page_height no_sort_opt bang)
  | Internal.toggle_counts =>
      (s, s.with_new_options env page_height toggle_counts_opt bang)
  | Internal.toggle_dates =>
      (s, s.with_new_options env page_height toggle_dates_opt bang)
  | Internal.toggle_files =>
      (s, s.with_new_options env page_height toggle_files_opt bang)
  | Internal.toggle_hidden =>
      (s, s.with_new_options env page_height toggle_hidden_opt bang)
  | Internal.toggle_git_ignore =>
      (s, s.with_new_options env page_height toggle_git_ignore_opt bang)
  | Internal.toggle_git_file_info =>
      (s, s.with_new_options env page_height toggle_git_file_info_opt bang)
  | Internal.toggle_git_status =>
      (s, s.with_new_options env page_height toggle_git_status_opt bang)
  | Internal.toggle_perm =>
      (s, s.with_new_options env page_height toggle_perm_opt bang)
  | Internal.toggle_sizes =>
      (s, s.with_new_options env page_height toggle_sizes_opt bang)
  | Internal.toggle_trim_root =>
      (s, s.with_new_options env page_height toggle_trim_root_opt bang)
  | Internal.total_search =>
    match s.filtered_tree with
    | some tree =>
        if tree.total_search then
          (s, AppStateCmdResult.DisplayError
            "search was already total - all children have been rated")
        else
          ({ s with
              pending_pattern := tree.options.pattern
              total_search_required := true },
           AppStateCmdResult.Keep)
    | none =>
        (s, AppStateCmdResult.DisplayError
          "this verb can be used only after a search")
  | Internal.quit => (s, AppStateCmdResult.Quit)

/-- `BrowserState::get_pending_task` (browser_state.rs:237-247). -/
def BrowserState.get_pending_task (s : BrowserState) : Option String :=
  if s.pending_pattern.isSome then some "searching"
  else if s.displayed_tree.has_dir_missing_sum then some "computing stats"
  else if s.displayed_tree.is_missing_git_status_computation then
    some "computing git status"
  else none

/-- `BrowserState::do_pending_task` (browser_state.rs:626-664): a pending
pattern is taken out of the state and a filtered tree is built from the
base tree's root; else a missing git status is fetched for the displayed
tree; else a batch of missing directory sums is computed. -/
def BrowserState.do_pending_task (s : BrowserState) (env : Env)
    (page_height : Nat) (dam : Dam) : BrowserState :=
  match s.pending_pattern with
  | some pat =>
    match TreeBuilder.from' env s.tree.root
        { s.tree.options with pattern := some pat } page_height with
    | Except.error _ => { s with pending_pattern := none }
    | Except.ok builder =>
      match builder.build s.total_search_required dam with
      | some ft =>
          { s with
              pending_pattern := none
              total_search_required := false
              filtered_tree :=
                some ((ft.try_select_best_match).make_selection_visible page_height) }
      | none =>
          { s with pending_pattern := none, total_search_required := false }
  | none =>
    if s.displayed_tree.is_missing_git_status_computation then
      s.set_displayed_tree
        { s.displayed_tree with
            git_status := env.getTreeStatus s.displayed_tree.root dam }
    else
      s.set_displayed_tree (env.fetchSomeMissingDirSum s.displayed_tree dam)

/-- `BrowserState::open_selection_stay_in_broot` (browser_state.rs:102-153).
Opening the root directory line goes up to its parent instead; the
`unreachable!()` arm for pruning lines is rendered as an internal error. -/
def BrowserState.open_selection_stay_in_broot (s : BrowserState) (env : Env)
    (page_height : Nat) (in_new_panel : Bool) (keep_pattern : Bool) :
    Except ProgramError (BrowserState × AppStateCmdResult) :=
  let tree := s.displayed_tree
  let line := tree.selectedLine
  match line.line_type with
  | TreeLineType.File =>
    match env.openThat line.path with
    | Except.ok _ => Except.ok (s, AppStateCmdResult.Keep)
    | Except.error e => Except.ok (s, AppStateCmdResult.DisplayError e)
  | TreeLineType.Dir | TreeLineType.SymLinkToDir _ =>
    let target := line.target
    let target :=
      if tree.selection = 0 then (FsPath.parent target).getD target else target
    Except.ok (s,
      AppStateCmdResult.from_optional_state
        (BrowserState.new env target
          (if keep_pattern then tree.options else tree.options.without_pattern)
          page_height Dam.unlimited)
        in_new_panel)
  | TreeLineType.SymLinkToFile target =>
    match env.openThat target with
    | Except.ok _ => Except.ok (s, AppStateCmdResult.Keep)
    | Except.error e => Except.error (ProgramError.openError e)
  | TreeLineType.Pruning => Except.error ProgramError.internalError

/-! ### Verb dispatch (browser_verbs.rs) -/

/-- `VerbInvocation` (verb.rs not among the sources): the bang marker and
the optional user-supplied arguments. -/
structure VerbInvocation where
  bang : Bool
  args : Option String
deriving DecidableEq, Repr

/-- `VerbExecution`: internal transition or external command template. -/
inductive VerbExecution where
  | Internal (internal : Internal) (bang : Bool)
  | External (exec_pattern : String)

/-- A verb: its execution and its invocation checker.  `matchError`
models `Verb::match_error` (verb.rs not among the sources): the
descriptive message produced when the supplied arguments do not match the
verb's declared arity/type, `none` when the invocation matches. -/
structure Verb where
  execution : VerbExecution
  matchError : VerbInvocation → Option String

/-- `BrowserState::execute_verb` (browser_verbs.rs:47-185): the invocation
is checked first and a mismatch is answered with a displayable error.
The dispatch that follows the check (browser_verbs.rs:57-184) is kept
abstract as `body`, so that what is proved about the checking path holds
whatever the handlers do. -/
def BrowserState.execute_verb
    (body : BrowserState → Verb → Option VerbInvocation →
      Except ProgramError (BrowserState × AppStateCmdResult))
    (s : BrowserState) (verb : Verb) (user_invocation : Option VerbInvocation) :
    Except ProgramError (BrowserState × AppStateCmdResult) :=
  match user_invocation.bind verb.matchError with
  | some err => Except.ok (s, AppStateCmdResult.DisplayError err)
  | none => body s verb user_invocation

/-! ### Concrete fixtures used by witnesses and counterexamples -/

/-- A trivial environment: builder preparation succeeds everywhere, each
build passes one checkpoint, opening succeeds, git status is empty,
sum fetching changes nothing. -/
def env0 : Env :=
  { fromFail := fun _ => none
    checkpoints := fun _ => 1
    openThat := fun _ => Except.ok ()
    getTreeStatus := fun _ _ => some []
    fetchSomeMissingDirSum := fun t _ => t }

/-- A dam that interrupts at every checkpoint. -/
def dam1 : Dam :=
  { interrupted := fun _ => true }

def lineRoot : TreeLine :=
  { path := ["root"], line_type := TreeLineType.Dir, sum := none, score := none }

def lineSrc : TreeLine :=
  { path := ["root", "src"], line_type := TreeLineType.Dir, sum := none, score := none }

def lineLib : TreeLine :=
  { path := ["root", "src", "lib.c"], line_type := TreeLineType.File, sum := none,
    score := some 5 }

/-- A base tree on `/root` with `src/lib.c` below it, selection on the root. -/
def treeBase : FlatTree :=
  { lines := [lineRoot, lineSrc, lineLib]
    selection := 0
    scroll := 0
    options := opt0
    total_search := false
    git_status := none
    needs_git_status := false }

/-- A filtered tree for pattern `lib`, selection on `src/lib.c`. -/
def ftree0 : FlatTree :=
  { lines := [lineRoot, lineSrc, lineLib]
    selection := 2
    scroll := 0
    options := { opt0 with pattern := some "lib" }
    total_search := false
    git_status := none
    needs_git_status := false }

/-- A state with an active filtered tree. -/
def st0 : BrowserState :=
  { tree := treeBase, filtered_tree := some ftree0, pending_pattern := none,
    total_search_required := false }

/-- A state with no filter and the selection on the root line. -/
def stRoot : BrowserState :=
  { tree := treeBase, filtered_tree := none, pending_pattern := none,
    total_search_required := false }

/-- A state with a pending pattern and an active filtered tree. -/
def sPend : BrowserState :=
  { tree := treeBase, filtered_tree := some ftree0, pending_pattern := some "lib",
    total_search_required := false }

/-- A state whose base tree still waits for its git status. -/
def sGit : BrowserState :=
  { tree := { treeBase with needs_git_status := true }, filtered_tree := none,
    pending_pattern := none, total_search_required := false }

/-- A state whose filtered tree already comes from a total search. -/
def sTot : BrowserState :=
  { tree := treeBase, filtered_tree := some { ftree0 with total_search := true },
    pending_pattern := none, total_search_required := false }

/-- A state whose displayed tree has its root directory line selected. -/
def stDir : BrowserState :=
  { tree :=
      { lines := [{ path := ["root", "sub"], line_type := TreeLineType.Dir,
                    sum := none, score := none }]
        selection := 0
        scroll := 0
        options := opt0
        total_search := false
        git_status := none
        needs_git_status := false }
    filtered_tree := none
    pending_pattern := none
    total_search_required := false }

/-- The builder that `env0` prepares for `treeBase` and pattern `lib`. -/
def bldr0 : TreeBuilder :=
  { root := ["root"], options := { opt0 with pattern := some "lib" }, work := 1 }

/-- A dispatch body that quits whatever it is given (used to show the
invocation check does not reach the body). -/
def body0 : BrowserState → Verb → Option VerbInvocation →
    Except ProgramError (BrowserState × AppStateCmdResult) :=
  fun s _ _ => Except.ok (s, AppStateCmdResult.Quit)

/-- A verb whose invocation check always reports a mismatch. -/
def verb0 : Verb :=
  { execution := VerbExecution.Internal Internal.back false
    matchError := fun _ => some "invalid arguments" }

def inv0 : VerbInvocation :=
  { bang := false, args := some "x" }

/-- The dispatch body of the older `execute_verb` for `Internal::back`
(browser_verbs.rs:62-63): `back => AppStateCmdResult::PopState` —
unconditionally `PopState`, with no state mutation (the arm reads nothing
and writes nothing on `self`). -/
def browser_verbs_back_body : BrowserState → Verb → Option VerbInvocation →
    Except ProgramError (BrowserState × AppStateCmdResult) :=
  fun s _ _ => Except.ok (s, AppStateCmdResult.PopState)

/-- A well-formed `back` invocation: the invocation check accepts it. -/
def verbBack : Verb :=
  { execution := VerbExecution.Internal Internal.back false
    matchError := fun _ => none }

/-- An environment whose builder preparation fails everywhere. -/
def envErr : Env :=
  { env0 with fromFail := fun _ => some "cannot build" }

/-- The tree `env0` builds for root `/root` and pattern `lib` when the dam
does not interrupt. -/
def builtLib : FlatTree :=
  { lines := [lineRoot]
    selection := 0
    scroll := 0
    options := { opt0 with pattern := some "lib" }
    total_search := false
    git_status := none
    needs_git_status := false }

/-- `List.any` of a pointwise-false predicate is false. -/
theorem any_eq_false_of (l : List Nat) (f : Nat → Bool) (h : ∀ n, f n = false) :
    l.any f = false := by
  induction l with
  | nil => rfl
  | cons a t ih => simp [h, ih]

/-! ### Helper lemmas -/

theorem toggle_hidden_twice (o : TreeOptions) :
    toggle_hidden_opt (toggle_hidden_opt o) = o := by
  cases o
  simp [toggle_hidden_opt]

theorem toggle_counts_twice (o : TreeOptions) :
    toggle_counts_opt (toggle_counts_opt o) = o := by
  cases o
  simp [toggle_counts_opt]

theorem toggle_dates_twice (o : TreeOptions) :
    toggle_dates_opt (toggle_dates_opt o) = o := by
  cases o
  simp [toggle_dates_opt]

theorem toggle_files_twice (o : TreeOptions) :
    toggle_files_opt (toggle_files_opt o) = o := by
  cases o
  simp [toggle_files_opt]

theorem toggle_git_ignore_twice (o : TreeOptions) :
    toggle_git_ignore_opt (toggle_git_ignore_opt o) = o := by
  cases o
  simp [toggle_git_ignore_opt]

theorem toggle_git_file_info_twice (o : TreeOptions) :
    toggle_git_file_info_opt (toggle_git_file_info_opt o) = o := by
  cases o
  simp [toggle_git_file_info_opt]

theorem toggle_perm_twice (o : TreeOptions) :
    toggle_perm_opt (toggle_perm_opt o) = o := by
  cases o
  simp [toggle_perm_opt]

theorem toggle_sizes_twice (o : TreeOptions) :
    toggle_sizes_opt (toggle_sizes_opt o) = o := by
  cases o
  simp [toggle_sizes_opt]

theorem toggle_trim_root_twice (o : TreeOptions) :
    toggle_trim_root_opt (toggle_trim_root_opt o) = o := by
  cases o
  simp [toggle_trim_root_opt]

theorem toggle_git_status_twice_iff (o : TreeOptions) :
    toggle_git_status_opt (toggle_git_status_opt o) = o ↔ o.show_hidden = true := by
  cases o with
  | mk sh f c d sz gfi tr p gi fgs srt pat =>
    cases sh <;> cases fgs <;> simp [toggle_git_status_opt]

theorem sort_by_count_twice_iff (o : TreeOptions) :
    sort_by_count_opt (sort_by_count_opt o) = o ↔
      (o.sort = SortKind.count ∧ o.show_counts = true) ∨
      (o.sort = SortKind.none ∧ o.show_counts = false) := by
  cases o with
  | mk sh f c d sz gfi tr p gi fgs srt pat =>
    cases srt <;> cases c <;> simp [sort_by_count_opt]

theorem sort_by_date_twice_iff (o : TreeOptions) :
    sort_by_date_opt (sort_by_date_opt o) = o ↔
      (o.sort = SortKind.date ∧ o.show_dates = true) ∨
      (o.sort = SortKind.none ∧ o.show_dates = false) := by
  cases o with
  | mk sh f c d sz gfi tr p gi fgs srt pat =>
    cases srt <;> cases d <;> simp [sort_by_date_opt]

theorem sort_by_size_twice_iff (o : TreeOptions) :
    sort_by_size_opt (sort_by_size_opt o) = o ↔
      (o.sort = SortKind.size ∧ o.show_sizes = true) ∨
      (o.sort = SortKind.none ∧ o.show_sizes = false) := by
  cases o with
  | mk sh f c d sz gfi tr p gi fgs srt pat =>
    cases srt <;> cases sz <;> simp [sort_by_size_opt]

theorem range_any_false (n : Nat) :
    (List.range n).any (fun _ => false) = false := by
  induction n with
  | zero => rfl
  | succ k ih => simp

/-! ### Claim theorems -/

/-- Claim C1 counterexample: dispatching a well-formed `back` invocation
through the older `execute_verb` (browser_verbs.rs:62-63) on a state whose
filtered tree is present returns `PopState` with the state — including the
filtered tree — unchanged: it neither selects the filtered path in the base
tree, nor discards the filtered tree, nor returns `Keep`, contradicting the
first tier of the claim. -/
theorem execute_verb_back_pops_despite_filter :
    st0.filtered_tree = some ftree0 ∧
    BrowserState.execute_verb browser_verbs_back_body st0 verbBack none =
      Except.ok (st0, AppStateCmdResult.PopState) :=
  ⟨rfl, rfl⟩

/-- Claim C1 (amended): through `on_internal` (browser_state.rs:318-330),
`back` behaves in exactly three tiers: with a filtered tree present it
selects the filtered selection's path in the base tree, discards the
filtered tree and returns `Keep`; without one but with a selection below
the root it resets the selection to 0 and returns `Keep`; otherwise it
returns `PopState`; and one `on_internal` invocation never both discards a
filtered tree and returns `PopState`.  Through the older `execute_verb`
dispatcher (browser_verbs.rs:62-63), `back` instead returns `PopState`
unconditionally once the invocation check passes, with the whole state
(filtered tree included) unchanged. -/
theorem back_three_tiers (env : Env) (ph : Nat) (bang : Bool) (s : BrowserState) :
    (∀ ft, s.filtered_tree = some ft →
      s.on_internal env ph Internal.back bang =
        ({ s with
            tree := s.tree.try_select_path ft.selectedLine.path
            filtered_tree := none },
          AppStateCmdResult.Keep)) ∧
    (s.filtered_tree = none → 0 < s.tree.selection →
      s.on_internal env ph Internal.back bang =
        ({ s with tree := { s.tree with selection := 0 } }, AppStateCmdResult.Keep)) ∧
    (s.filtered_tree = none → s.tree.selection = 0 →
      s.on_internal env ph Internal.back bang = (s, AppStateCmdResult.PopState)) ∧
    ((s.on_internal env ph Internal.back bang).2 = AppStateCmdResult.PopState →
      s.filtered_tree = none) ∧
    (∀ verb : Verb, ∀ ui : Option VerbInvocation, ui.bind verb.matchError = none →
      BrowserState.execute_verb browser_verbs_back_body s verb ui =
        Except.ok (s, AppStateCmdResult.PopState)) := by
  refine ⟨?_, ?_, ?_, ?_, ?_⟩
  · intro ft hft
    simp [BrowserState.on_internal, hft]
  · intro hnone hsel
    simp [BrowserState.on_internal, hnone, hsel]
  · intro hnone hsel
    simp [BrowserState.on_internal, hnone, hsel]
  · intro h
    rcases hft : s.filtered_tree with _ | ft
    · rfl
    · simp [BrowserState.on_internal, hft] at h
  · intro verb ui hok
    simp [BrowserState.execute_verb, hok, browser_verbs_back_body]

/-- Witness for C1 (amended): on a state filtered to `src/lib.c`,
`on_internal` `back` collapses to the base tree selecting that path and
keeps the panel; on an unfiltered state selected at the root it asks to pop
the panel; and through the older dispatcher the same filtered state is
answered with an unconditional `PopState`. -/
theorem back_three_tiers_witness :
    st0.on_internal env0 10 Internal.back false =
      ({ st0 with
          tree := st0.tree.try_select_path ftree0.selectedLine.path
          filtered_tree := none },
        AppStateCmdResult.Keep) ∧
    stRoot.on_internal env0 10 Internal.back false = (stRoot, AppStateCmdResult.PopState) ∧
    BrowserState.execute_verb browser_verbs_back_body st0 verbBack (some inv0) =
      Except.ok (st0, AppStateCmdResult.PopState) :=
  ⟨(back_three_tiers env0 10 false st0).1 ftree0 rfl,
   (back_three_tiers env0 10 false stRoot).2.2.1 rfl rfl,
   (back_three_tiers env0 10 false st0).2.2.2.2 verbBack (some inv0) rfl⟩

/-- Claim C2 counterexample: toggling `toggle_git_status` twice from the
baseline options (hidden files off, filter off) does not return the options
to their original value, because switching the filter on forces
`show_hidden` on and switching it off leaves `show_hidden` on. -/
theorem toggle_git_status_twice_ne :
    toggle_git_status_opt (toggle_git_status_opt opt0) ≠ opt0 := by
  decide

/-- Claim C2 (amended): each of the nine plain boolean toggles is an
involution for every starting `TreeOptions`; `toggle_git_status` applied
twice returns to the start exactly when `show_hidden` was already on; a
sort toggle applied twice returns to the start exactly when its criterion
was already active with its display flag on, or no sort was active with
that flag off. -/
theorem toggle_twice_characterization (o : TreeOptions) :
    toggle_hidden_opt (toggle_hidden_opt o) = o ∧
    toggle_dates_opt (toggle_dates_opt o) = o ∧
    toggle_files_opt (toggle_files_opt o) = o ∧
    toggle_git_ignore_opt (toggle_git_ignore_opt o) = o ∧
    toggle_git_file_info_opt (toggle_git_file_info_opt o) = o ∧
    toggle_perm_opt (toggle_perm_opt o) = o ∧
    toggle_sizes_opt (toggle_sizes_opt o) = o ∧
    toggle_counts_opt (toggle_counts_opt o) = o ∧
    toggle_trim_root_opt (toggle_trim_root_opt o) = o ∧
    (toggle_git_status_opt (toggle_git_status_opt o) = o ↔ o.show_hidden = true) ∧
    (sort_by_count_opt (sort_by_count_opt o) = o ↔
      (o.sort = SortKind.count ∧ o.show_counts = true) ∨
      (o.sort = SortKind.none ∧ o.show_counts = false)) ∧
    (sort_by_date_opt (sort_by_date_opt o) = o ↔
      (o.sort = SortKind.date ∧ o.show_dates = true) ∨
      (o.sort = SortKind.none ∧ o.show_dates = false)) ∧
    (sort_by_size_opt (sort_by_size_opt o) = o ↔
      (o.sort = SortKind.size ∧ o.show_sizes = true) ∨
      (o.sort = SortKind.none ∧ o.show_sizes = false)) :=
  ⟨toggle_hidden_twice o, toggle_dates_twice o, toggle_files_twice o,
   toggle_git_ignore_twice o, toggle_git_file_info_twice o, toggle_perm_twice o,
   toggle_sizes_twice o, toggle_counts_twice o, toggle_trim_root_twice o,
   toggle_git_status_twice_iff o, sort_by_count_twice_iff o,
   sort_by_date_twice_iff o, sort_by_size_twice_iff o⟩

/-- Claim C5: each sort verb is a two-state toggle: it resets the sort (and
turns the matching display flag off) when its criterion is already active,
and otherwise sets its criterion (and turns the flag on); all other option
fields are preserved. -/
theorem sort_verbs_two_state (o : TreeOptions) :
    ((sort_by_count_opt o).sort =
      if o.sort = SortKind.count then SortKind.none else SortKind.count) ∧
    ((sort_by_count_opt o).show_counts =
      if o.sort = SortKind.count then false else true) ∧
    ({ sort_by_count_opt o with sort := o.sort, show_counts := o.show_counts } = o) ∧
    ((sort_by_date_opt o).sort =
      if o.sort = SortKind.date then SortKind.none else SortKind.date) ∧
    ((sort_by_date_opt o).show_dates =
      if o.sort = SortKind.date then false else true) ∧
    ({ sort_by_date_opt o with sort := o.sort, show_dates := o.show_dates } = o) ∧
    ((sort_by_size_opt o).sort =
      if o.sort = SortKind.size then SortKind.none else SortKind.size) ∧
    ((sort_by_size_opt o).show_sizes =
      if o.sort = SortKind.size then false else true) ∧
    ({ sort_by_size_opt o with sort := o.sort, show_sizes := o.show_sizes } = o) := by
  cases o with
  | mk sh f c d sz gfi tr p gi fgs srt pat =>
    cases srt <;> simp [sort_by_count_opt, sort_by_date_opt, sort_by_size_opt]

/-- Claim C6: receiving an empty pattern discards the filtered tree and
leaves the base tree (selection, scroll and all other fields) unchanged;
the outcome keeps the panel. -/
theorem on_pattern_none_restores_base (s : BrowserState) (pat : InputPattern)
    (h : pat.isNone = true) :
    (s.on_pattern pat).1.filtered_tree = none ∧
    (s.on_pattern pat).1.tree = s.tree ∧
    (s.on_pattern pat).1.pending_pattern = pat ∧
    (s.on_pattern pat).2 = AppStateCmdResult.Keep := by
  cases pat
  · simp [BrowserState.on_pattern]
  · simp at h

/-- Witness for C6 at a filtered state and the empty pattern. -/
theorem on_pattern_none_restores_base_witness :
    (st0.on_pattern none).1.filtered_tree = none ∧
    (st0.on_pattern none).1.tree = st0.tree ∧
    (st0.on_pattern none).1.pending_pattern = none ∧
    (st0.on_pattern none).2 = AppStateCmdResult.Keep :=
  on_pattern_none_restores_base st0 none rfl

/-- Claim C3 counterexample: with a pending pattern and a dam interrupting
the build, `do_pending_task` leaves the previous filtered tree untouched
but does NOT keep the pending pattern — the pattern was taken out of the
state before the build, so it is `none` afterwards and no retry can happen
from this state alone. -/
theorem do_pending_task_consumes_pending :
    sPend.pending_pattern = some "lib" ∧
    (TreeBuilder.from' env0 sPend.tree.root
        { sPend.tree.options with pattern := some "lib" } 10).map
      (fun b => b.build sPend.total_search_required dam1) = Except.ok none ∧
    (sPend.do_pending_task env0 10 dam1).filtered_tree = sPend.filtered_tree ∧
    (sPend.do_pending_task env0 10 dam1).pending_pattern = none :=
  ⟨rfl, rfl, rfl, rfl⟩

/-- Claim C3 (amended): when the build of the pending pattern is interrupted
(the builder returns no tree), the previously existing filtered tree and the
base tree are left unchanged, but the pending pattern is consumed (set to
none) and `total_search_required` is reset; a retry only happens when a new
pattern event sets the pending pattern again. -/
theorem do_pending_task_interrupted (env : Env) (ph : Nat) (dam : Dam)
    (s : BrowserState) (p : Pat) (b : TreeBuilder)
    (hp : s.pending_pattern = some p)
    (hb : TreeBuilder.from' env s.tree.root
      { s.tree.options with pattern := some p } ph = Except.ok b)
    (hint : b.build s.total_search_required dam = none) :
    (s.do_pending_task env ph dam).filtered_tree = s.filtered_tree ∧
    (s.do_pending_task env ph dam).tree = s.tree ∧
    (s.do_pending_task env ph dam).pending_pattern = none ∧
    (s.do_pending_task env ph dam).total_search_required = false := by
  simp [BrowserState.do_pending_task, hp, hb, hint]

/-- Witness for C3 (amended) at the concrete interrupted build. -/
theorem do_pending_task_interrupted_witness :
    (sPend.do_pending_task env0 10 dam1).filtered_tree = sPend.filtered_tree ∧
    (sPend.do_pending_task env0 10 dam1).tree = sPend.tree ∧
    (sPend.do_pending_task env0 10 dam1).pending_pattern = none ∧
    (sPend.do_pending_task env0 10 dam1).total_search_required = false :=
  do_pending_task_interrupted env0 10 dam1 sPend "lib" bldr0 rfl rfl rfl

/-- Claim C4: each `do_pending_task` call performs at most one kind of work,
by strict priority.  With a pending pattern the call does only pattern work,
pinned exactly in each sub-case: a builder-preparation failure just consumes
the pattern; an interrupted build consumes the pattern and resets the
total-search request; a completed build additionally replaces the filtered
tree with the freshly built one (best match selected, made visible) — in no
sub-case is git status fetched or a directory sum computed on either tree.
Else, with a missing git status, the call exactly fetches git status into
the displayed tree; else it exactly computes a batch of directory sums on
the displayed tree. -/
theorem do_pending_task_priority (env : Env) (ph : Nat) (dam : Dam)
    (s : BrowserState) :
    (∀ p e, s.pending_pattern = some p →
      TreeBuilder.from' env s.tree.root
        { s.tree.options with pattern := some p } ph = Except.error e →
      s.do_pending_task env ph dam = { s with pending_pattern := none }) ∧
    (∀ p b, s.pending_pattern = some p →
      TreeBuilder.from' env s.tree.root
        { s.tree.options with pattern := some p } ph = Except.ok b →
      b.build s.total_search_required dam = none →
      s.do_pending_task env ph dam =
        { s with pending_pattern := none, total_search_required := false }) ∧
    (∀ p b ft, s.pending_pattern = some p →
      TreeBuilder.from' env s.tree.root
        { s.tree.options with pattern := some p } ph = Except.ok b →
      b.build s.total_search_required dam = some ft →
      s.do_pending_task env ph dam =
        { s with
            pending_pattern := none
            total_search_required := false
            filtered_tree :=
              some ((ft.try_select_best_match).make_selection_visible ph) }) ∧
    (s.pending_pattern = none →
      s.displayed_tree.is_missing_git_status_computation = true →
      s.do_pending_task env ph dam =
        s.set_displayed_tree
          { s.displayed_tree with
              git_status := env.getTreeStatus s.displayed_tree.root dam }) ∧
    (s.pending_pattern = none →
      s.displayed_tree.is_missing_git_status_computation = false →
      s.do_pending_task env ph dam =
        s.set_displayed_tree (env.fetchSomeMissingDirSum s.displayed_tree dam)) := by
  refine ⟨?_, ?_, ?_, ?_, ?_⟩
  · intro p e hp hb
    simp [BrowserState.do_pending_task, hp, hb]
  · intro p b hp hb hbuild
    simp [BrowserState.do_pending_task, hp, hb, hbuild]
  · intro p b ft hp hb hbuild
    simp [BrowserState.do_pending_task, hp, hb, hbuild]
  · intro hp hmiss
    simp [BrowserState.do_pending_task, hp, hmiss]
  · intro hp hmiss
    simp [BrowserState.do_pending_task, hp, hmiss]

/-- Witness for C4: the three pattern sub-cases on a pending state (builder
failure, interrupted build, completed build), the git branch on a state
missing git status, and the sum branch on an idle state. -/
theorem do_pending_task_priority_witness :
    sPend.do_pending_task envErr 10 dam1 = { sPend with pending_pattern := none } ∧
    sPend.do_pending_task env0 10 dam1 =
      { sPend with pending_pattern := none, total_search_required := false } ∧
    sPend.do_pending_task env0 10 Dam.unlimited =
      { sPend with
          pending_pattern := none
          total_search_required := false
          filtered_tree :=
            some ((builtLib.try_select_best_match).make_selection_visible 10) } ∧
    sGit.do_pending_task env0 10 Dam.unlimited =
      sGit.set_displayed_tree
        { sGit.displayed_tree with
            git_status := env0.getTreeStatus sGit.displayed_tree.root Dam.unlimited } ∧
    stRoot.do_pending_task env0 10 Dam.unlimited =
      stRoot.set_displayed_tree
        (env0.fetchSomeMissingDirSum stRoot.displayed_tree Dam.unlimited) :=
  ⟨(do_pending_task_priority envErr 10 dam1 sPend).1 "lib" "cannot build" rfl rfl,
   (do_pending_task_priority env0 10 dam1 sPend).2.1 "lib" bldr0 rfl rfl rfl,
   (do_pending_task_priority env0 10 Dam.unlimited sPend).2.2.1 "lib" bldr0 builtLib rfl rfl rfl,
   (do_pending_task_priority env0 10 Dam.unlimited sGit).2.2.2.1 rfl rfl,
   (do_pending_task_priority env0 10 Dam.unlimited stRoot).2.2.2.2 rfl rfl⟩

/-- Claim C7: `BrowserState::new` answers `Ok(None)` only when the dam
interrupted the build at some checkpoint; with a dam that never interrupts
(the unlimited variant) the call yields either a build error or
`Ok(Some(state))`. -/
theorem new_none_only_on_interrupt (env : Env) (path : FsPath)
    (options : TreeOptions) (ph : Nat) (dam : Dam) :
    (BrowserState.new env path options ph dam = Except.ok none →
      (List.range (env.checkpoints path)).any dam.interrupted = true) ∧
    ((∀ n, dam.interrupted n = false) →
      (∃ e, BrowserState.new env path options ph dam = Except.error e) ∨
      (∃ st, BrowserState.new env path options ph dam = Except.ok (some st))) := by
  have h1 : BrowserState.new env path options ph dam = Except.ok none →
      (List.range (env.checkpoints path)).any dam.interrupted = true := by
    intro h
    simp only [BrowserState.new, TreeBuilder.from'] at h
    rcases hf : env.fromFail path with _ | e
    · rw [hf] at h
      simp only [TreeBuilder.build] at h
      by_cases hi : (List.range (env.checkpoints path)).any dam.interrupted = true
      · exact hi
      · simp [hi] at h
    · rw [hf] at h
      simp at h
  refine ⟨h1, ?_⟩
  intro hun
  rcases hnew : BrowserState.new env path options ph dam with e | o
  · exact Or.inl ⟨e, rfl⟩
  · cases o with
    | none =>
        have hfalse : (List.range (env.checkpoints path)).any dam.interrupted = false :=
          any_eq_false_of _ _ hun
        simp [h1 hnew] at hfalse
    | some st => exact Or.inr ⟨st, rfl⟩

/-- Witness for C7: with `env0` and the always-interrupting dam, `new`
does return `Ok(None)` and the interruption is observed; with the unlimited
dam the disjunction holds (concretely, by its right branch). -/
theorem new_none_only_on_interrupt_witness :
    (List.range (env0.checkpoints ["root"])).any dam1.interrupted = true ∧
    ((∃ e, BrowserState.new env0 ["root"] opt0 10 Dam.unlimited = Except.error e) ∨
      (∃ st, BrowserState.new env0 ["root"] opt0 10 Dam.unlimited = Except.ok (some st))) :=
  ⟨(new_none_only_on_interrupt env0 ["root"] opt0 10 dam1).1 rfl,
   (new_none_only_on_interrupt env0 ["root"] opt0 10 Dam.unlimited).2 (fun _ => rfl)⟩

/-- Claim C8: when the supplied invocation mismatches the verb's declared
arguments (`match_error` answers a message), `execute_verb` returns a
non-fatal `DisplayError` outcome carrying that message with the state
unchanged — and this holds whatever the dispatch body would do, so no
handler is ever invoked. -/
theorem execute_verb_match_error_displayed
    (body : BrowserState → Verb → Option VerbInvocation →
      Except ProgramError (BrowserState × AppStateCmdResult))
    (s : BrowserState) (verb : Verb) (inv : VerbInvocation) (err : String)
    (h : verb.matchError inv = some err) :
    BrowserState.execute_verb body s verb (some inv) =
      Except.ok (s, AppStateCmdResult.DisplayError err) := by
  simp [BrowserState.execute_verb, h]

/-- Witness for C8: a verb rejecting every invocation, dispatched over a
body that would quit, still only displays the error and keeps the state. -/
theorem execute_verb_match_error_displayed_witness :
    BrowserState.execute_verb body0 st0 verb0 (some inv0) =
      Except.ok (st0, AppStateCmdResult.DisplayError "invalid arguments") :=
  execute_verb_match_error_displayed body0 st0 verb0 inv0 "invalid arguments" rfl

/-- Claim C9: opening the selection (staying in broot) on a directory or
symlink-to-directory line constructs the new state on the parent of the
selected target when the root line (selection 0) is selected and a parent
exists, and on the target itself for any other selection; the current state
is returned unchanged next to the outcome. -/
theorem open_selection_stay_root (env : Env) (ph : Nat) (s : BrowserState)
    (panel keep : Bool)
    (hdir : s.displayed_tree.selectedLine.line_type = TreeLineType.Dir ∨
      ∃ tp, s.displayed_tree.selectedLine.line_type = TreeLineType.SymLinkToDir tp)
    (hfrom : env.fromFail
      (if s.displayed_tree.selection = 0 then
        (FsPath.parent s.displayed_tree.selectedLine.target).getD
          s.displayed_tree.selectedLine.target
      else s.displayed_tree.selectedLine.target) = none) :
    (s.open_selection_stay_in_broot env ph panel keep).map
        (fun r => (r.1, r.2.newStateRoot)) =
      Except.ok (s, some
        (if s.displayed_tree.selection = 0 then
          (FsPath.parent s.displayed_tree.selectedLine.target).getD
            s.displayed_tree.selectedLine.target
        else s.displayed_tree.selectedLine.target)) := by
  rcases hdir with h | ⟨tp, h⟩ <;>
    simp [BrowserState.open_selection_stay_in_broot, h, BrowserState.new,
      TreeBuilder.from', hfrom, TreeBuilder.build, Dam.unlimited, range_any_false,
      AppStateCmdResult.from_optional_state, AppStateCmdResult.newStateRoot,
      FlatTree.root, Except.map]

/-- Witness for C9: on `stDir` (root directory line `/root/sub` selected at
index 0) the new state is rooted at the parent `/root`. -/
theorem open_selection_stay_root_witness :
    (stDir.open_selection_stay_in_broot env0 10 false false).map
        (fun r => (r.1, r.2.newStateRoot)) =
      Except.ok (stDir, some ["root"]) :=
  open_selection_stay_root env0 10 stDir false false (Or.inl rfl) rfl

/-- Claim C10: `total_search` answers a `DisplayError` and leaves the state
unchanged when there is no filtered tree or its search is already total;
with a filtered, non-total search it exactly sets the pending pattern to the
filtered tree's pattern and raises `total_search_required`, leaving both
trees unchanged and keeping the panel. -/
theorem total_search_cases (env : Env) (ph : Nat) (bang : Bool) (s : BrowserState) :
    (s.filtered_tree = none →
      s.on_internal env ph Internal.total_search bang =
        (s, AppStateCmdResult.DisplayError "this verb can be used only after a search")) ∧
    (∀ ft, s.filtered_tree = some ft → ft.total_search = true →
      s.on_internal env ph Internal.total_search bang =
        (s, AppStateCmdResult.DisplayError
          "search was already total - all children have been rated")) ∧
    (∀ ft, s.filtered_tree = some ft → ft.total_search = false →
      s.on_internal env ph Internal.total_search bang =
        ({ s with pending_pattern := ft.options.pattern, total_search_required := true },
          AppStateCmdResult.Keep)) := by
  refine ⟨?_, ?_, ?_⟩
  · intro hnone
    simp [BrowserState.on_internal, hnone]
  · intro ft hft htot
    simp [BrowserState.on_internal, hft, htot]
  · intro ft hft htot
    simp [BrowserState.on_internal, hft, htot]

/-- Witness for C10: the three cases at concrete states — no filter, a
total filtered search, and a partial filtered search. -/
theorem total_search_cases_witness :
    stRoot.on_internal env0 10 Internal.total_search false =
      (stRoot, AppStateCmdResult.DisplayError "this verb can be used only after a search") ∧
    sTot.on_internal env0 10 Internal.total_search false =
      (sTot, AppStateCmdResult.DisplayError
        "search was already total - all children have been rated") ∧
    st0.on_internal env0 10 Internal.total_search false =
      ({ st0 with pending_pattern := ftree0.options.pattern, total_search_required := true },
        AppStateCmdResult.Keep) :=
  ⟨(total_search_cases env0 10 false stRoot).1 rfl,
   (total_search_cases env0 10 false sTot).2.1 _ rfl rfl,
   (total_search_cases env0 10 false st0).2.2 ftree0 rfl rfl⟩
